import Mathlib

/-!
Verification of the RNN decoder base class
(`txtgen/modules/decoders/rnn_decoder_base.py`) and the example model
configuration (`examples/differentiable_expected_bleu/config_model.py`).

The decoder's own logic (hyperparameter defaults, cell selection in the
constructor, the decode orchestration in `_build`, the `batch_size`
property, and the abstract `initialize` / `step` / `finalize` callbacks)
is embedded directly from the source.  Collaborators that live outside
the given sources (the `ModuleBase` hyperparameter merging, the cell
factory `get_rnn_cell`, `default_rnn_cell_hparams`, the module-parameter
tracker, and the ambient training-mode flag) are modelled from the spec,
as marked on each definition.
-/

namespace Txtgen

/-- Modelled from the spec: `default_rnn_cell_hparams` lives in
`txtgen.core.layers`, which is not among the given sources.  The spec
records only that the cell configuration is a nested mapping (its
`kwargs` carrying the cell size `num_units`) defaulted by a
collaborator; the concrete numeric default is unconstrained by the
excerpt and no theorem below depends on it. -/
structure CellKwargs where
  num_units : Nat
deriving Repr, DecidableEq

/-- The `rnn_cell` hyperparameter mapping: a nested mapping whose
`kwargs` sub-mapping configures the cell. -/
structure RnnCellHparams where
  kwargs : CellKwargs
deriving Repr, DecidableEq

/-- Modelled from the spec: default cell configuration returned by the
collaborator `default_rnn_cell_hparams`; the numeric value is not fixed
by the excerpt. -/
def default_rnn_cell_hparams : RnnCellHparams :=
  { kwargs := { num_units := 256 } }

/-- A value stored in a hyperparameter mapping: either an integer scalar
or a nested cell configuration. -/
inductive HValue where
  | int : Int → HValue
  | cell : RnnCellHparams → HValue
deriving Repr, DecidableEq

/-- The resolved hyperparameters of the decoder base class: the two
recognized options of `RNNDecoderBase.default_hparams`. -/
structure DecoderHparams where
  rnn_cell : RnnCellHparams
  max_decoding_length : Nat
deriving Repr, DecidableEq

/-- `RNNDecoderBase.default_hparams` as a structured value:
`rnn_cell` defaulted by the collaborator, `max_decoding_length = 64`. -/
def default_decoder_hparams : DecoderHparams :=
  { rnn_cell := default_rnn_cell_hparams, max_decoding_length := 64 }

/-- The dictionary literal returned by `RNNDecoderBase.default_hparams`:
keys in source order, `rnn_cell` bound to the collaborator default and
`max_decoding_length` bound to `64`. -/
def default_hparams : List (String × HValue) :=
  [("rnn_cell", HValue.cell default_rnn_cell_hparams),
   ("max_decoding_length", HValue.int 64)]

/-- A call to the defaults function in an ambient state `W`: the source
body is a single `return` of a dictionary literal, so the call yields
the literal and touches nothing else. -/
def default_hparams_call {W : Type} (w : W) : List (String × HValue) × W :=
  (default_hparams, w)

/-- Caller-supplied cell kwargs: each recognized key may be omitted. -/
structure GivenCellKwargs where
  num_units : Option Nat
deriving Repr, DecidableEq

/-- Caller-supplied `rnn_cell` mapping: the `kwargs` sub-mapping may be
omitted. -/
structure GivenRnnCellHparams where
  kwargs : Option GivenCellKwargs
deriving Repr, DecidableEq

/-- Caller-supplied decoder hyperparameters: each recognized key may be
omitted. -/
structure GivenHparams where
  rnn_cell : Option GivenRnnCellHparams
  max_decoding_length : Option Nat
deriving Repr, DecidableEq

/-- Modelled from the spec: `ModuleBase` (not among the given sources)
fills each omitted option from the documented defaults ("values are
filled from explicit settings with fallback to documented defaults when
absent"), key by key down the nesting. -/
def resolveCellKwargs (given : Option GivenCellKwargs) : CellKwargs :=
  match given with
  | none => default_rnn_cell_hparams.kwargs
  | some g =>
      { num_units := g.num_units.getD default_rnn_cell_hparams.kwargs.num_units }

/-- Modelled from the spec: per-key fallback for the `rnn_cell`
sub-mapping. -/
def resolveRnnCellHparams (given : Option GivenRnnCellHparams) : RnnCellHparams :=
  match given with
  | none => default_rnn_cell_hparams
  | some g => { kwargs := resolveCellKwargs g.kwargs }

/-- Modelled from the spec: per-key fallback for the decoder
hyperparameters against `default_hparams`. -/
def resolveHparams (given : Option GivenHparams) : DecoderHparams :=
  match given with
  | none => default_decoder_hparams
  | some g =>
      { rnn_cell := resolveRnnCellHparams g.rnn_cell,
        max_decoding_length :=
          g.max_decoding_length.getD default_decoder_hparams.max_decoding_length }

/-- Modelled from the spec: a constructed recurrent cell, as produced by
the external cell factory or supplied by the caller.  It carries its
configured size and its trainable variables (registered by `_build`). -/
structure RNNCell where
  num_units : Nat
  trainable_variables : List String
deriving Repr, DecidableEq

/-- Modelled from the spec: the external cell factory `get_rnn_cell`
("given an `rnn_cell` hyperparameter mapping, returns a constructed
recurrent cell object").  A freshly constructed cell has no trainable
variables yet. -/
def get_rnn_cell (hp : RnnCellHparams) : RNNCell :=
  { num_units := hp.kwargs.num_units, trainable_variables := [] }

/-- A decoding helper: the only attribute this excerpt reads from it is
`batch_size`. -/
structure Helper where
  batch_size : Nat
deriving Repr, DecidableEq

/-- The state of a decoder instance, over recurrent-state type `σ`:
name and resolved hyperparameters (set via `ModuleBase`), the cell, the
per-invocation helper and initial state (both `none` at construction),
the module's own internal trainable variables, and the list of
variables registered with the module-parameter tracker (modelled from
the spec, as the tracker is not among the given sources). -/
structure DecoderState (σ : Type) where
  name : String
  hparams : DecoderHparams
  cell : RNNCell
  helper : Option Helper
  initial_state : Option σ
  internal_variables : List String
  trainable_variables : List String

/-- Failures surfaced by the base class: the not-implemented signal of
the abstract callbacks, and the attribute failure of reading through
the empty helper reference. -/
inductive DecodeError where
  | notImplemented
  | noneHelper
deriving Repr, DecidableEq

/-- `RNNDecoderBase.__init__`: stores `None` for helper and initial
state; if a cell is supplied it is stored as-is, otherwise the cell
factory is invoked on the resolved `rnn_cell` hyperparameters.  The
second component records the arguments of every cell-factory
invocation made during construction. -/
def RNNDecoderBase.init {σ : Type} (cell : Option RNNCell)
    (hparams : Option GivenHparams) (nm : String) :
    DecoderState σ × List RnnCellHparams :=
  let hp := resolveHparams hparams
  match cell with
  | some c =>
      ({ name := nm, hparams := hp, cell := c, helper := none,
         initial_state := none, internal_variables := [],
         trainable_variables := [] }, [])
  | none =>
      ({ name := nm, hparams := hp, cell := get_rnn_cell hp.rnn_cell,
         helper := none, initial_state := none, internal_variables := [],
         trainable_variables := [] }, [hp.rnn_cell])

/-- `tf.cond` applied to already-selected branch values, as written in
the source (`tf.cond(context.is_train(), None, max_decoding_length)`):
the training branch is the unbounded placeholder, the inference branch
the configured bound. -/
def tf_cond {α : Type} (pred : Bool) (true_branch false_branch : α) : α :=
  if pred then true_branch else false_branch

/-- The maximum-iterations bound `_build` hands to the external driver:
no cap while the runtime mode flag reports training, the configured
`max_decoding_length` otherwise. -/
def maxIterFor (is_train : Bool) (hp : DecoderHparams) : Option Nat :=
  tf_cond is_train none (some hp.max_decoding_length)

/-- Observable actions of one `_build` invocation, in order: storing
the helper, storing the initial state, the call into the external
dynamic-decode driver with its bound, the driver returning its triple,
and the two registrations with the module-parameter tracker. -/
inductive BuildEvent (σ ω : Type) where
  | setHelper : Helper → BuildEvent σ ω
  | setInitialState : σ → BuildEvent σ ω
  | driverCall : Option Nat → BuildEvent σ ω
  | driverReturn : ω → σ → List Nat → BuildEvent σ ω
  | registerInternal : List String → BuildEvent σ ω
  | registerCellVars : List String → BuildEvent σ ω

/-- Tests whether an event stores the helper. -/
def isSetHelper {σ ω : Type} : BuildEvent σ ω → Bool
  | BuildEvent.setHelper _ => true
  | _ => false

/-- Tests whether an event stores the initial state. -/
def isSetInitialState {σ ω : Type} : BuildEvent σ ω → Bool
  | BuildEvent.setInitialState _ => true
  | _ => false

/-- The outcome of `RNNDecoderBase._build`: the three driver outputs
returned verbatim, the decoder state after the invocation, and the
trace of observable actions. -/
structure BuildResult (σ ω : Type) where
  outputs : ω
  final_state : σ
  sequence_lengths : List Nat
  decoder : DecoderState σ
  trace : List (BuildEvent σ ω)

/-- `RNNDecoderBase._build`: stores the helper and initial state,
selects the maximum-iterations bound by the runtime mode flag,
delegates to the external dynamic-decode driver (passed in as a
function, per the spec an external collaborator), then registers the
module's own trainable variables and the cell's trainable variables
with the tracker, and returns the driver's triple unchanged. -/
def RNNDecoderBase.build {σ ω : Type} (dec : DecoderState σ)
    (is_train : Bool)
    (driver : DecoderState σ → Option Nat → ω × σ × List Nat)
    (helper : Helper) (initial_state : σ) : BuildResult σ ω :=
  let dec1 : DecoderState σ :=
    { dec with helper := some helper, initial_state := some initial_state }
  let m : Option Nat := maxIterFor is_train dec1.hparams
  let r := driver dec1 m
  let dec2 : DecoderState σ :=
    { dec1 with
        trainable_variables :=
          dec1.trainable_variables ++ dec1.internal_variables ++
            dec1.cell.trainable_variables }
  { outputs := r.1, final_state := r.2.1, sequence_lengths := r.2.2,
    decoder := dec2,
    trace :=
      [BuildEvent.setHelper helper,
       BuildEvent.setInitialState initial_state,
       BuildEvent.driverCall m,
       BuildEvent.driverReturn r.1 r.2.1 r.2.2,
       BuildEvent.registerInternal dec1.internal_variables,
       BuildEvent.registerCellVars dec1.cell.trainable_variables] }

/-- The `batch_size` property: reads `batch_size` through the stored
helper reference; with the construction-time `None` still in place the
read fails instead of producing a value. -/
def RNNDecoderBase.batch_size {σ : Type} (dec : DecoderState σ) :
    Except DecodeError Nat :=
  match dec.helper with
  | none => Except.error DecodeError.noneHelper
  | some h => Except.ok h.batch_size

/-- `RNNDecoderBase.initialize` (named `initializeCb` here to satisfy
the Lean toolchain): the unoverridden base-class callback fails with
the not-implemented signal. -/
def RNNDecoderBase.initializeCb {σ : Type} (_dec : DecoderState σ)
    (_nm : Option String) : Except DecodeError (List Bool × List Int × σ) :=
  Except.error DecodeError.notImplemented

/-- `RNNDecoderBase.step`: the unoverridden base-class callback fails
with the not-implemented signal. -/
def RNNDecoderBase.step {σ : Type} (_dec : DecoderState σ) (_time : Nat)
    (_inputs : List Int) (_state : σ) (_nm : Option String) :
    Except DecodeError (List Int × σ × List Int × List Bool) :=
  Except.error DecodeError.notImplemented

/-- `RNNDecoderBase.finalize`: the unoverridden base-class callback
fails with the not-implemented signal. -/
def RNNDecoderBase.finalize {σ ω : Type} (_dec : DecoderState σ)
    (_outputs : ω) (_final_state : σ) (_sequence_lengths : List Nat) :
    Except DecodeError (ω × σ) :=
  Except.error DecodeError.notImplemented

end Txtgen

namespace ConfigModel

/-- `config_model.py`: `num_units = 1000`. -/
def num_units : Nat := 1000

/-- `config_model.py`: `embedding_dim = 500`. -/
def embedding_dim : Nat := 500

/-- The embedder configuration mapping of `config_model.py`. -/
structure EmbedderConfig where
  dim : Nat
deriving Repr, DecidableEq

/-- `config_model.py`: `embedder = {'dim': embedding_dim}`. -/
def embedder : EmbedderConfig := { dim := embedding_dim }

/-- The encoder configuration mapping of `config_model.py`. -/
structure EncoderConfig where
  rnn_cell_fw : Txtgen.GivenRnnCellHparams
deriving Repr, DecidableEq

/-- `config_model.py`: the encoder's forward cell carries
`kwargs.num_units = num_units`. -/
def encoder : EncoderConfig :=
  { rnn_cell_fw := { kwargs := some { num_units := some num_units } } }

/-- The attention sub-mapping of the decoder configuration: its
`kwargs` carry `num_units`, and it carries `attention_layer_size`. -/
structure AttentionConfig where
  kwargs_num_units : Nat
  attention_layer_size : Nat
deriving Repr, DecidableEq

/-- The decoder configuration mapping of `config_model.py`. -/
structure DecoderConfig where
  rnn_cell : Txtgen.GivenRnnCellHparams
  attention : AttentionConfig
deriving Repr, DecidableEq

/-- `config_model.py`: the decoder's `rnn_cell.kwargs.num_units` and
both attention values are `num_units`. -/
def decoder : DecoderConfig :=
  { rnn_cell := { kwargs := some { num_units := some num_units } },
    attention :=
      { kwargs_num_units := num_units, attention_layer_size := num_units } }

end ConfigModel

/-- Claim C1: in every decode invocation of the orchestration method,
the maximum-iterations bound handed to the external dynamic-decode
driver is the one selected by the runtime mode flag; under the
inference flag that bound equals the configured `max_decoding_length`,
and under the training flag no cap is passed (the unbounded
placeholder). -/
theorem C1_decode_bound {σ ω : Type} (dec : Txtgen.DecoderState σ)
    (is_train : Bool)
    (driver : Txtgen.DecoderState σ → Option Nat → ω × σ × List Nat)
    (hlp : Txtgen.Helper) (s0 : σ) :
    Txtgen.BuildEvent.driverCall (Txtgen.maxIterFor is_train dec.hparams) ∈
      (Txtgen.RNNDecoderBase.build dec is_train driver hlp s0).trace ∧
    Txtgen.maxIterFor false dec.hparams =
      some dec.hparams.max_decoding_length ∧
    Txtgen.maxIterFor true dec.hparams = none := by
  refine ⟨?_, rfl, rfl⟩
  simp [Txtgen.RNNDecoderBase.build]

/-- Claim C2: constructing with an explicit cell stores exactly that
cell and leaves the cell factory uninvoked; constructing without one
invokes the factory exactly once, on the decoder's configured
`rnn_cell` hyperparameters, and stores its result as the cell. -/
theorem C2_cell_selection {σ : Type} (c : Txtgen.RNNCell)
    (hparams : Option Txtgen.GivenHparams) (nm : String) :
    ((Txtgen.RNNDecoderBase.init (σ := σ) (some c) hparams nm).1.cell = c ∧
      (Txtgen.RNNDecoderBase.init (σ := σ) (some c) hparams nm).2 = []) ∧
    ((Txtgen.RNNDecoderBase.init (σ := σ) none hparams nm).2 =
        [(Txtgen.resolveHparams hparams).rnn_cell] ∧
      (Txtgen.RNNDecoderBase.init (σ := σ) none hparams nm).1.cell =
        Txtgen.get_rnn_cell (Txtgen.resolveHparams hparams).rnn_cell) :=
  ⟨⟨rfl, rfl⟩, rfl, rfl⟩

/-- Claim C3: on the base class, each of the three callbacks
`initialize` (embedded as `initializeCb`), `step` and `finalize`
fails with the not-implemented signal, independently of its inputs. -/
theorem C3_abstract_callbacks {σ ω : Type} (dec : Txtgen.DecoderState σ)
    (nm : Option String) (time : Nat) (inputs : List Int) (st : σ)
    (outs : ω) (fs : σ) (lens : List Nat) :
    Txtgen.RNNDecoderBase.initializeCb dec nm =
      Except.error Txtgen.DecodeError.notImplemented ∧
    Txtgen.RNNDecoderBase.step dec time inputs st nm =
      Except.error Txtgen.DecodeError.notImplemented ∧
    Txtgen.RNNDecoderBase.finalize dec outs fs lens =
      Except.error Txtgen.DecodeError.notImplemented :=
  ⟨rfl, rfl, rfl⟩

/-- Claim C4: the defaults function returns a mapping with exactly the
keys `rnn_cell` and `max_decoding_length`, in that order, and binds
`max_decoding_length` to `64`. -/
theorem C4_default_hparams_shape :
    Txtgen.default_hparams.map Prod.fst =
      ["rnn_cell", "max_decoding_length"] ∧
    Txtgen.default_hparams.lookup "max_decoding_length" =
      some (Txtgen.HValue.int 64) :=
  ⟨rfl, by decide⟩

/-- Claim C5: the defaults function is deterministic and side-effect
free: calls from any two ambient states return equal mappings, and a
call leaves the ambient state unchanged. -/
theorem C5_default_hparams_pure {W W' : Type} (w : W) (w' : W') :
    (Txtgen.default_hparams_call w).1 = (Txtgen.default_hparams_call w').1 ∧
    (Txtgen.default_hparams_call w).2 = w :=
  ⟨rfl, rfl⟩

/-- Claim C6: the orchestration method returns the external driver's
three outputs unchanged, in the order (outputs, final state, sequence
lengths), where the driver is applied to the decoder with helper and
initial state stored and to the selected bound. -/
theorem C6_returns_driver_outputs {σ ω : Type} (dec : Txtgen.DecoderState σ)
    (is_train : Bool)
    (driver : Txtgen.DecoderState σ → Option Nat → ω × σ × List Nat)
    (hlp : Txtgen.Helper) (s0 : σ) :
    ((Txtgen.RNNDecoderBase.build dec is_train driver hlp s0).outputs,
     (Txtgen.RNNDecoderBase.build dec is_train driver hlp s0).final_state,
     (Txtgen.RNNDecoderBase.build dec is_train driver hlp s0).sequence_lengths) =
      driver { dec with helper := some hlp, initial_state := some s0 }
        (Txtgen.maxIterFor is_train dec.hparams) :=
  rfl

/-- Claim C7: in every orchestration invocation the two registrations
with the module-parameter tracker (the module's own variables, then
the cell's) happen strictly after the driver returns, and beyond
storing the helper and initial state this registration is the only
state change: name, hyperparameters, cell and internal variables are
untouched, and the tracked-variable list grows by exactly the two
registered groups. -/
theorem C7_registration_bookkeeping {σ ω : Type} (dec : Txtgen.DecoderState σ)
    (is_train : Bool)
    (driver : Txtgen.DecoderState σ → Option Nat → ω × σ × List Nat)
    (hlp : Txtgen.Helper) (s0 : σ) :
    let b := Txtgen.RNNDecoderBase.build dec is_train driver hlp s0
    let t := driver { dec with helper := some hlp, initial_state := some s0 }
      (Txtgen.maxIterFor is_train dec.hparams)
    b.trace =
      [Txtgen.BuildEvent.setHelper hlp,
       Txtgen.BuildEvent.setInitialState s0,
       Txtgen.BuildEvent.driverCall (Txtgen.maxIterFor is_train dec.hparams),
       Txtgen.BuildEvent.driverReturn t.1 t.2.1 t.2.2,
       Txtgen.BuildEvent.registerInternal dec.internal_variables,
       Txtgen.BuildEvent.registerCellVars dec.cell.trainable_variables] ∧
    b.decoder.trainable_variables =
      dec.trainable_variables ++ dec.internal_variables ++
        dec.cell.trainable_variables ∧
    b.decoder.name = dec.name ∧
    b.decoder.hparams = dec.hparams ∧
    b.decoder.cell = dec.cell ∧
    b.decoder.internal_variables = dec.internal_variables ∧
    b.decoder.helper = some hlp ∧
    b.decoder.initial_state = some s0 :=
  ⟨rfl, rfl, rfl, rfl, rfl, rfl, rfl, rfl⟩

/-- Claim C8 counterexample: the claim says that after a decode
invocation completes the decoder retains no helper or initial state;
on a concrete invocation the completed decoder still holds both (the
source stores them on the instance and never clears them). -/
theorem C8_counterexample :
    ¬ (((Txtgen.RNNDecoderBase.build
            (Txtgen.RNNDecoderBase.init (σ := Nat) none none "rnn_decoder").1
            false (fun _ _ => ((0 : Nat), (0 : Nat), ([] : List Nat)))
            { batch_size := 1 } 0).decoder.helper = none) ∧
        ((Txtgen.RNNDecoderBase.build
            (Txtgen.RNNDecoderBase.init (σ := Nat) none none "rnn_decoder").1
            false (fun _ _ => ((0 : Nat), (0 : Nat), ([] : List Nat)))
            { batch_size := 1 } 0).decoder.initial_state = none)) := by
  decide

/-- Claim C8 (amended): the helper and initial state are each set
exactly once, at the start of each decode invocation; they are not
cleared when the invocation completes — the completed decoder retains
them, and a subsequent invocation overwrites them with its own. -/
theorem C8_helper_lifecycle {σ ω : Type} (dec : Txtgen.DecoderState σ)
    (is_train is_train' : Bool)
    (driver driver' : Txtgen.DecoderState σ → Option Nat → ω × σ × List Nat)
    (hlp hlp' : Txtgen.Helper) (s0 s0' : σ) :
    let b := Txtgen.RNNDecoderBase.build dec is_train driver hlp s0
    (b.trace.countP Txtgen.isSetHelper = 1 ∧
     b.trace.countP Txtgen.isSetInitialState = 1 ∧
     b.trace.head? = some (Txtgen.BuildEvent.setHelper hlp)) ∧
    (b.decoder.helper = some hlp ∧ b.decoder.initial_state = some s0) ∧
    ((Txtgen.RNNDecoderBase.build b.decoder is_train' driver' hlp' s0').decoder.helper
        = some hlp' ∧
     (Txtgen.RNNDecoderBase.build b.decoder is_train' driver' hlp' s0').decoder.initial_state
        = some s0') :=
  ⟨⟨rfl, rfl, rfl⟩, ⟨rfl, rfl⟩, rfl, rfl⟩

/-- Claim C9: with the example configuration's values
(`num_units = 1000`, `embedding_dim = 500`), constructing a decoder
from the configuration's `decoder.rnn_cell` mapping yields a cell
configured with `num_units = 1000`, and the attention sub-mapping
carries `attention_layer_size = 1000`. -/
theorem C9_example_config :
    ConfigModel.num_units = 1000 ∧ ConfigModel.embedding_dim = 500 ∧
    (Txtgen.RNNDecoderBase.init (σ := Nat) none
        (some { rnn_cell := some ConfigModel.decoder.rnn_cell,
                max_decoding_length := none }) "rnn_decoder").1.cell.num_units
      = 1000 ∧
    ConfigModel.decoder.attention.attention_layer_size = 1000 := by
  refine ⟨rfl, rfl, ?_, rfl⟩
  decide

/-- Claim C10: reading the `batch_size` property of a freshly
constructed decoder, before any decode invocation, fails (the helper
reference is still the construction-time `None`) rather than
returning a value. -/
theorem C10_batch_size_before_build {σ : Type} (cell : Option Txtgen.RNNCell)
    (hparams : Option Txtgen.GivenHparams) (nm : String) :
    Txtgen.RNNDecoderBase.batch_size
        ((Txtgen.RNNDecoderBase.init (σ := σ) cell hparams nm).1) =
      Except.error Txtgen.DecodeError.noneHelper := by
  cases cell <;> rfl
